import Mathlib

/-!
Verification of the Flower-Classification prediction orchestration layer.

The embedding covers:
* `frontend/src/app/api/classify/route.ts` — the Next.js disease route
  (`parseSearchResults` and the `POST` handler);
* the disease-detection page's `handleSubmit` (form construction, the
  60-second abort timer, response validation, error handling);
* the backend `/detect-disease` provider chain, which is documented in the
  README but whose implementation (`backend/main.py`) is not among the
  sources — it is modelled from the spec where so marked.

Strings model JS strings; JS falsiness of a string value (absent, null, or
the empty string) is modelled explicitly.  Numeric scores are modelled as
rationals: the code only compares and copies them.
-/

namespace FlowerClassification

/-- A single image-classification result from the Hugging Face inference
call (`hf.imageClassification`): a label and a score. -/
structure ClassResult where
  label : String
  score : ℚ
deriving DecidableEq, Repr

/-- One organic search result; its `snippet` field may be absent. -/
structure SearchResultItem where
  snippet : Option String
deriving DecidableEq, Repr

/-- The raw web-search payload: `organic_results` may be absent. -/
structure SearchResults where
  organic_results : Option (List SearchResultItem)
deriving DecidableEq, Repr

/-- JSON values appearing in the route's response bodies. -/
inductive JsonVal where
  | str (s : String)
  | num (q : ℚ)
deriving DecidableEq, Repr

/-- An HTTP response: status code and JSON object body as an ordered
field list. -/
structure HttpResponse where
  status : Nat
  body : List (String × JsonVal)
deriving DecidableEq, Repr

/-- Outcome of an awaited external call: a value, or a thrown error whose
message is `msg`. -/
inductive Outcome (α : Type) where
  | ok (a : α)
  | err (msg : String)
deriving DecidableEq, Repr

/-- The external world as seen by one `POST` invocation: the result of the
Hugging Face classification call and of the web-search call. -/
structure RouteEnv where
  classify : Outcome (List ClassResult)
  search : Outcome (Option SearchResults)

/-- JS `x || 'N/A'` on an optional string: `undefined`, `null` and the
empty string are falsy and replaced by the placeholder. -/
def jsOrNA : Option String → String
  | none => "N/A"
  | some s => if s = "" then "N/A" else s

/-- JS optional chaining `searchResults?.organic_results?.[i]?.snippet`. -/
def snippetAt (sr : Option SearchResults) (i : Nat) : Option String :=
  ((sr.bind (·.organic_results)).bind (fun l => l.get? i)).bind (·.snippet)

/-- The three free-text fields produced by `parseSearchResults`. -/
structure ParsedInfo where
  causes : String
  precautions : String
  solutions : String
deriving DecidableEq, Repr

/-- `parseSearchResults` from `route.ts`: snippets of the first three
organic results, each defaulted to `"N/A"` when falsy. -/
def parseSearchResults (sr : Option SearchResults) : ParsedInfo :=
  { causes := jsOrNA (snippetAt sr 0)
    precautions := jsOrNA (snippetAt sr 1)
    solutions := jsOrNA (snippetAt sr 2) }

/-- The single-field error object `{ error: msg }` the route returns. -/
def errorBody (msg : String) : List (String × JsonVal) :=
  [("error", JsonVal.str msg)]

/-- The `POST` handler of `route.ts`.  `imagePresent` models whether
`formData.get('image')` is non-null.  Any thrown error (failed
classification call, `classificationResult[0]` being `undefined` so that
`.label` throws, failed search call) lands in the catch block, which
returns status 500 with the fixed message. -/
def POST (imagePresent : Bool) (env : RouteEnv) : HttpResponse :=
  match imagePresent with
  | false => { status := 400, body := errorBody "No image provided" }
  | true =>
    match env.classify with
    | Outcome.err _ => { status := 500, body := errorBody "Something went wrong" }
    | Outcome.ok results =>
      match results.head? with
      | none => { status := 500, body := errorBody "Something went wrong" }
      | some topResult =>
        match env.search with
        | Outcome.err _ => { status := 500, body := errorBody "Something went wrong" }
        | Outcome.ok sr =>
          let p := parseSearchResults sr
          { status := 200
            body := [("diseaseName", JsonVal.str topResult.label),
                     ("identificationConfidence", JsonVal.num topResult.score),
                     ("causes", JsonVal.str p.causes),
                     ("precautions", JsonVal.str p.precautions),
                     ("solutions", JsonVal.str p.solutions)] }

/-! ### Disease-detection page (`handleSubmit` in the frontend) -/

/-- The validated disease report the page stores in its state. -/
structure DiseaseInfo where
  diseaseName : String
  causes : String
  precautions : String
  solutions : String
deriving DecidableEq, Repr

/-- The JSON body of the backend's reply as read by the page: each of the
four fields may be absent. -/
structure ApiData where
  diseaseName : Option String
  causes : Option String
  precautions : Option String
  solutions : Option String
deriving DecidableEq, Repr

/-- JS truthiness of an optional string field: absent, `null` and `""` are
falsy. -/
def jsTruthy : Option String → Bool
  | none => false
  | some s => decide (s ≠ "")

/-- A value appended to the multipart form. -/
inductive FormValue where
  | file
  | str (s : String)
deriving DecidableEq, Repr

/-- JS `String.prototype.trim`: strip leading and trailing whitespace. -/
def jsTrim (s : String) : String :=
  String.mk
    (((s.data.dropWhile Char.isWhitespace).reverse.dropWhile Char.isWhitespace).reverse)

/-- The `uploadFormData` built by `handleSubmit`: the image always, and
`api_key` exactly when `geminiKey && geminiKey.trim()` is truthy. -/
def buildUploadForm (geminiKey : String) : List (String × FormValue) :=
  ("image", FormValue.file) ::
    (if geminiKey ≠ "" ∧ jsTrim geminiKey ≠ "" then [("api_key", FormValue.str geminiKey)]
     else [])

/-- The fetch issued by `handleSubmit`: its URL, body, and the abort
wiring (`controller.signal` passed to `fetch`, `setTimeout(() =>
controller.abort(), 60000)`). -/
structure FetchRequest where
  url : String
  body : List (String × FormValue)
  hasAbortSignal : Bool
  abortTimerMs : Nat
deriving DecidableEq, Repr

/-- The request `handleSubmit` sends to the backend. -/
def detectDiseaseRequest (apiUrl geminiKey : String) : FetchRequest :=
  { url := apiUrl ++ "/detect-disease"
    body := buildUploadForm geminiKey
    hasAbortSignal := true
    abortTimerMs := 60000 }

/-- How the awaited fetch can resolve, as observed by `handleSubmit`'s
try/catch: a response (with its `ok` flag, parsed JSON body, and the
`detail` field used on the non-ok path), an `AbortError` thrown when the
timer fired, or some other thrown error. -/
inductive FetchOutcome where
  | response (ok : Bool) (data : ApiData) (detail : Option String)
  | abortError
  | otherError (msg : String)
deriving DecidableEq, Repr

/-- The page state `handleSubmit` leaves behind: the stored report, the
displayed error, and the pending flag (always cleared in `finally`). -/
structure SubmitResult where
  diseaseInfo : Option DiseaseInfo
  error : Option String
  isPending : Bool
deriving DecidableEq, Repr

/-- The message shown when the abort timer fired. -/
def timeoutMessage : String :=
  "Request timed out. Please check your connection and try again."

/-- Tail of `handleSubmit` after the fetch resolves: non-ok responses
throw `errorData.detail || 'Failed to detect plant disease.'`; ok
responses are accepted only when all four fields are truthy, otherwise
`'Invalid response from disease detection API.'` is thrown; the catch
block maps `AbortError` to the timeout message and any other error to its
message; `finally` clears the pending flag. -/
def handleSubmitOutcome : FetchOutcome → SubmitResult
  | FetchOutcome.abortError =>
      { diseaseInfo := none, error := some timeoutMessage, isPending := false }
  | FetchOutcome.otherError msg =>
      { diseaseInfo := none, error := some msg, isPending := false }
  | FetchOutcome.response false _ detail =>
      { diseaseInfo := none
        error := some (match detail with
          | some d => if d = "" then "Failed to detect plant disease." else d
          | none => "Failed to detect plant disease.")
        isPending := false }
  | FetchOutcome.response true data _ =>
      if jsTruthy data.diseaseName && jsTruthy data.causes &&
         jsTruthy data.precautions && jsTruthy data.solutions then
        { diseaseInfo := some
            { diseaseName := data.diseaseName.getD ""
              causes := data.causes.getD ""
              precautions := data.precautions.getD ""
              solutions := data.solutions.getD "" }
          error := none
          isPending := false }
      else
        { diseaseInfo := none
          error := some "Invalid response from disease detection API."
          isPending := false }

/-! ### The backend provider chain (modelled from the spec) -/

/-- Modelled from the spec: how one provider call of the backend chain
(`backend/main.py` is not among the sources) can end — a raw output, an
error (network error, malformed response, invalid credential), or
exceeding its per-call timeout. -/
inductive ProviderOutcome (α : Type) where
  | ok (out : α)
  | err
  | timeout
deriving DecidableEq, Repr

/-- Modelled from the spec: a provider outcome counts as a failure unless
it produced an output; in particular a timeout is a failure. -/
def providerFailed {α : Type} : ProviderOutcome α → Bool
  | ProviderOutcome.ok _ => false
  | ProviderOutcome.err => true
  | ProviderOutcome.timeout => true

/-- Modelled from the spec: result of the chain — an output tagged with
the provider that produced it, or exhaustion of every configured
provider (`AllProvidersFailedError`). -/
inductive ChainResult (α : Type) where
  | ok (out : α) (tag : String)
  | allProvidersFailed
deriving DecidableEq, Repr

/-- Modelled from the spec: a run of the chain — its result plus which
providers were invoked. -/
structure ChainRun (α : Type) where
  result : ChainResult α
  enhancedAttempted : Bool
  freeAttempted : Bool
deriving DecidableEq, Repr

/-- Modelled from the spec: the `DiseaseProviderChain` of the backend's
`/detect-disease` endpoint (`backend/main.py`, which is not among the
sources).  If a credential is supplied the enhanced provider is attempted
first and its success is returned tagged "enhanced"; on its failure, or
when no credential is supplied, the free provider is attempted; if the
free provider also fails the chain fails as a whole with
`AllProvidersFailedError`.  A provider exceeding its independent timeout
is a failure and the chain proceeds to the next provider. -/
def detectDiseaseChain {α : Type} (credential : Option String)
    (enhanced free : ProviderOutcome α) : ChainRun α :=
  match credential with
  | some _ =>
    match enhanced with
    | ProviderOutcome.ok out =>
        { result := ChainResult.ok out "enhanced"
          enhancedAttempted := true, freeAttempted := false }
    | _ =>
      match free with
      | ProviderOutcome.ok out =>
          { result := ChainResult.ok out "free"
            enhancedAttempted := true, freeAttempted := true }
      | _ =>
          { result := ChainResult.allProvidersFailed
            enhancedAttempted := true, freeAttempted := true }
  | none =>
    match free with
    | ProviderOutcome.ok out =>
        { result := ChainResult.ok out "free"
          enhancedAttempted := false, freeAttempted := true }
    | _ =>
        { result := ChainResult.allProvidersFailed
          enhancedAttempted := false, freeAttempted := true }

/-! ### Sample inputs used by witnesses and counterexamples -/

/-- A successful classification call returning one labelled result. -/
def sampleClassification : Outcome (List ClassResult) :=
  Outcome.ok [{ label := "Powdery Mildew", score := 9 }]

/-- Three search results with snippets. -/
def sampleSnippets : List SearchResultItem :=
  [{ snippet := some "fungal spores" }, { snippet := some "air circulation" },
   { snippet := some "fungicide" }]

/-- A successful search call with three snippets. -/
def sampleSearch : Outcome (Option SearchResults) :=
  Outcome.ok (some { organic_results := some sampleSnippets })

/-! ### Helper lemmas on the validation of an ok response -/

/-- When all four fields of an ok response are truthy, the report is
stored. -/
theorem handleSubmit_ok_accept (data : ApiData) (detail : Option String)
    (hall : (jsTruthy data.diseaseName && jsTruthy data.causes &&
        jsTruthy data.precautions && jsTruthy data.solutions) = true) :
    handleSubmitOutcome (FetchOutcome.response true data detail)
      = { diseaseInfo := some
            { diseaseName := data.diseaseName.getD ""
              causes := data.causes.getD ""
              precautions := data.precautions.getD ""
              solutions := data.solutions.getD "" }
          error := none
          isPending := false } := by
  simp only [handleSubmitOutcome]
  rw [if_pos hall]

/-- When some field of an ok response is falsy, the invalid-response
error is raised. -/
theorem handleSubmit_ok_reject (data : ApiData) (detail : Option String)
    (hall : ¬ ((jsTruthy data.diseaseName && jsTruthy data.causes &&
        jsTruthy data.precautions && jsTruthy data.solutions) = true)) :
    handleSubmitOutcome (FetchOutcome.response true data detail)
      = { diseaseInfo := none
          error := some "Invalid response from disease detection API."
          isPending := false } := by
  simp only [handleSubmitOutcome]
  rw [if_neg hall]

/-! ### Claims -/

/-- C1: the detect-disease chain surfaces an error iff every configured
provider failed; when the enhanced provider fails but the free provider
succeeds, the free provider's report is returned with no error. -/
theorem chain_error_iff_all_providers_failed {α : Type} (credential : Option String)
    (enhanced free : ProviderOutcome α) :
    ((detectDiseaseChain credential enhanced free).result
        = ChainResult.allProvidersFailed
      ↔ (providerFailed free = true ∧ (credential ≠ none → providerFailed enhanced = true)))
    ∧ (∀ out : α, providerFailed enhanced = true → free = ProviderOutcome.ok out →
        (detectDiseaseChain credential enhanced free).result = ChainResult.ok out "free") := by
  constructor
  · cases credential <;> cases enhanced <;> cases free <;>
      simp [detectDiseaseChain, providerFailed]
  · intro out he hf
    subst hf
    cases credential <;> cases enhanced <;>
      simp_all [detectDiseaseChain, providerFailed]

/-- Witness for C1: enhanced provider down, free provider up, the free
report is returned. -/
theorem chain_error_iff_all_providers_failed_witness :
    (detectDiseaseChain (some "key") ProviderOutcome.err
        (ProviderOutcome.ok "report")).result = ChainResult.ok "report" "free" :=
  (chain_error_iff_all_providers_failed (some "key") ProviderOutcome.err
      (ProviderOutcome.ok "report")).2 "report" rfl rfl

/-- C2: without a credential the enhanced provider is never invoked, the
free provider is attempted and needs no credential, and the enhanced
provider can only have been attempted if a credential was present. -/
theorem enhanced_provider_requires_credential {α : Type} (credential : Option String)
    (enhanced free : ProviderOutcome α) :
    ((detectDiseaseChain (none : Option String) enhanced free).enhancedAttempted = false)
    ∧ ((detectDiseaseChain (none : Option String) enhanced free).freeAttempted = true)
    ∧ ((detectDiseaseChain credential enhanced free).enhancedAttempted = true →
        credential ≠ none)
    ∧ (∀ out : α, free = ProviderOutcome.ok out →
        (detectDiseaseChain (none : Option String) enhanced free).result
          = ChainResult.ok out "free") := by
  refine ⟨?_, ?_, ?_, ?_⟩
  · cases free <;> rfl
  · cases free <;> rfl
  · intro h
    cases credential with
    | none => cases free <;> simp [detectDiseaseChain] at h
    | some c => simp
  · intro out hf
    subst hf
    rfl

/-- Witness for C2: a credential-less run never touches the enhanced
provider and returns the free provider's output. -/
theorem enhanced_provider_requires_credential_witness :
    (detectDiseaseChain (none : Option String) ProviderOutcome.err
        (ProviderOutcome.ok "report")).result = ChainResult.ok "report" "free" :=
  (enhanced_provider_requires_credential (none : Option String) ProviderOutcome.err
      (ProviderOutcome.ok "report")).2.2.2 "report" rfl

/-- Counterexample for C3: a successful response of the route carries a
fifth field, `identificationConfidence`, so the body is not exactly the
four-field shape. -/
theorem detect_response_has_extra_field :
    (POST true { classify := sampleClassification, search := sampleSearch }).status = 200
    ∧ ((POST true { classify := sampleClassification, search := sampleSearch }).body.map
          Prod.fst
        ≠ ["diseaseName", "causes", "precautions", "solutions"])
    ∧ ("identificationConfidence"
        ∈ (POST true { classify := sampleClassification, search := sampleSearch }).body.map
            Prod.fst) := by
  decide

/-- C3 (amended): every successful response body has exactly the five
fields diseaseName, identificationConfidence, causes, precautions,
solutions — the four documented fields plus a confidence score. -/
theorem detect_success_body_fields (imagePresent : Bool) (env : RouteEnv)
    (h : (POST imagePresent env).status = 200) :
    (POST imagePresent env).body.map Prod.fst
      = ["diseaseName", "identificationConfidence", "causes", "precautions",
         "solutions"] := by
  unfold POST at h ⊢
  cases imagePresent with
  | false => simp at h
  | true =>
    cases hc : env.classify with
    | err m => simp [hc] at h
    | ok results =>
      cases hh : results.head? with
      | none => simp [hc, hh] at h
      | some t =>
        cases hs : env.search with
        | err m => simp [hc, hh, hs] at h
        | ok sr => simp [hh]

/-- Witness for C3 (amended): a concrete successful request produces the
five-field body. -/
theorem detect_success_body_fields_witness :
    (POST true { classify := sampleClassification, search := sampleSearch }).body.map
        Prod.fst
      = ["diseaseName", "identificationConfidence", "causes", "precautions",
         "solutions"] :=
  detect_success_body_fields true
    { classify := sampleClassification, search := sampleSearch } (by decide)

/-- C4: a response whose disease-name field is falsy (absent or empty) is
rejected with the invalid-response error even when the other three fields
are present, and no stored report ever has an empty name. -/
theorem empty_diseaseName_never_accepted :
    (∀ (data : ApiData) (detail : Option String), jsTruthy data.diseaseName = false →
      handleSubmitOutcome (FetchOutcome.response true data detail)
        = { diseaseInfo := none
            error := some "Invalid response from disease detection API."
            isPending := false })
    ∧ (∀ (o : FetchOutcome) (info : DiseaseInfo),
        (handleSubmitOutcome o).diseaseInfo = some info → info.diseaseName ≠ "") := by
  constructor
  · intro data detail hfalse
    exact handleSubmit_ok_reject data detail (by simp [hfalse])
  · intro o info h
    match o with
    | FetchOutcome.abortError => simp [handleSubmitOutcome] at h
    | FetchOutcome.otherError m => simp [handleSubmitOutcome] at h
    | FetchOutcome.response false data detail => simp [handleSubmitOutcome] at h
    | FetchOutcome.response true data detail =>
      by_cases hall : (jsTruthy data.diseaseName && jsTruthy data.causes &&
          jsTruthy data.precautions && jsTruthy data.solutions) = true
      · rw [handleSubmit_ok_accept data detail hall] at h
        have h3 := Option.some.inj h
        rw [← h3]
        show data.diseaseName.getD "" ≠ ""
        simp only [Bool.and_eq_true] at hall
        have hname := hall.1.1.1
        cases hd : data.diseaseName with
        | none => rw [hd] at hname; simp [jsTruthy] at hname
        | some s =>
          rw [hd] at hname
          simpa [jsTruthy] using hname
      · rw [handleSubmit_ok_reject data detail hall] at h
        simp at h

/-- Witness for C4: an empty disease name with all other fields present
is rejected. -/
theorem empty_diseaseName_never_accepted_witness :
    handleSubmitOutcome (FetchOutcome.response true
        { diseaseName := some "", causes := some "c", precautions := some "p",
          solutions := some "s" } none)
      = { diseaseInfo := none
          error := some "Invalid response from disease detection API."
          isPending := false } :=
  empty_diseaseName_never_accepted.1
    { diseaseName := some "", causes := some "c", precautions := some "p",
      solutions := some "s" } none (by decide)

/-- C5: the page stores a report iff all four fields of the response are
present (truthy); when any field is missing the invalid-response error is
raised instead of a partial success. -/
theorem report_accepted_iff_all_four_fields (data : ApiData) (detail : Option String) :
    (((handleSubmitOutcome (FetchOutcome.response true data detail)).diseaseInfo.isSome
        = true)
      ↔ (jsTruthy data.diseaseName = true ∧ jsTruthy data.causes = true
          ∧ jsTruthy data.precautions = true ∧ jsTruthy data.solutions = true))
    ∧ (¬ (jsTruthy data.diseaseName = true ∧ jsTruthy data.causes = true
          ∧ jsTruthy data.precautions = true ∧ jsTruthy data.solutions = true) →
        (handleSubmitOutcome (FetchOutcome.response true data detail)).error
          = some "Invalid response from disease detection API.") := by
  by_cases hall : (jsTruthy data.diseaseName && jsTruthy data.causes &&
      jsTruthy data.precautions && jsTruthy data.solutions) = true
  · rw [handleSubmit_ok_accept data detail hall]
    constructor
    · simp only [Option.isSome_some, true_iff]
      simpa [Bool.and_eq_true, and_assoc] using hall
    · intro hmiss
      exfalso
      apply hmiss
      simp only [Bool.and_eq_true] at hall
      exact ⟨hall.1.1.1, hall.1.1.2, hall.1.2, hall.2⟩
  · rw [handleSubmit_ok_reject data detail hall]
    constructor
    · simp only [Option.isSome_none, Bool.false_eq_true, false_iff]
      intro hc
      apply hall
      simp only [Bool.and_eq_true]
      exact ⟨⟨⟨hc.1, hc.2.1⟩, hc.2.2.1⟩, hc.2.2.2⟩
    · intro _
      rfl

/-- Witness for C5: a response missing the causes field is rejected with
the invalid-response error. -/
theorem report_accepted_iff_all_four_fields_witness :
    (handleSubmitOutcome (FetchOutcome.response true
        { diseaseName := some "Rust", causes := none, precautions := some "p",
          solutions := some "s" } none)).error
      = some "Invalid response from disease detection API." :=
  (report_accepted_iff_all_four_fields
    { diseaseName := some "Rust", causes := none, precautions := some "p",
      solutions := some "s" } none).2 (by decide)

/-- C6: the free provider's snippets are mapped positionally — first to
causes, second to precautions, third to solutions — and any snippet the
provider could not supply (absent or empty) becomes the literal "N/A". -/
theorem search_snippets_mapped_positionally
    (r0 r1 r2 : SearchResultItem) (rest : List SearchResultItem)
    (s0 s1 s2 : String)
    (h0 : r0.snippet = some s0) (n0 : s0 ≠ "")
    (h1 : r1.snippet = some s1) (n1 : s1 ≠ "")
    (h2 : r2.snippet = some s2) (n2 : s2 ≠ "") :
    (parseSearchResults (some { organic_results := some (r0 :: r1 :: r2 :: rest) })
      = { causes := s0, precautions := s1, solutions := s2 })
    ∧ (∀ sr : Option SearchResults,
        (snippetAt sr 0 = none ∨ snippetAt sr 0 = some "") →
          (parseSearchResults sr).causes = "N/A")
    ∧ (∀ sr : Option SearchResults,
        (snippetAt sr 1 = none ∨ snippetAt sr 1 = some "") →
          (parseSearchResults sr).precautions = "N/A")
    ∧ (∀ sr : Option SearchResults,
        (snippetAt sr 2 = none ∨ snippetAt sr 2 = some "") →
          (parseSearchResults sr).solutions = "N/A") := by
  refine ⟨?_, ?_, ?_, ?_⟩
  · simp [parseSearchResults, snippetAt, jsOrNA, h0, h1, h2, n0, n1, n2]
  · intro sr hsr
    rcases hsr with hsr | hsr <;> simp [parseSearchResults, jsOrNA, hsr]
  · intro sr hsr
    rcases hsr with hsr | hsr <;> simp [parseSearchResults, jsOrNA, hsr]
  · intro sr hsr
    rcases hsr with hsr | hsr <;> simp [parseSearchResults, jsOrNA, hsr]

/-- Witness for C6: the three sample snippets land in causes, precautions
and solutions in order. -/
theorem search_snippets_mapped_positionally_witness :
    parseSearchResults (some { organic_results := some sampleSnippets })
      = { causes := "fungal spores", precautions := "air circulation",
          solutions := "fungicide" } :=
  (search_snippets_mapped_positionally
    { snippet := some "fungal spores" } { snippet := some "air circulation" }
    { snippet := some "fungicide" } []
    "fungal spores" "air circulation" "fungicide"
    rfl (by decide) rfl (by decide) rfl (by decide)).1

/-- C7: the page's provider call carries an abort signal driven by a
60000 ms timer; an aborted (timed-out) call ends in the timeout error
with the pending flag cleared, never in a hanging state; and in the chain
a provider timeout counts as a failure after which the next provider is
used, all timeouts exhausting the chain. -/
theorem provider_timeout_is_failure_not_hang {α : Type}
    (apiUrl geminiKey : String) (credential : Option String) (out : α) :
    ((detectDiseaseRequest apiUrl geminiKey).hasAbortSignal = true
      ∧ (detectDiseaseRequest apiUrl geminiKey).abortTimerMs = 60000)
    ∧ (handleSubmitOutcome FetchOutcome.abortError
        = { diseaseInfo := none, error := some timeoutMessage, isPending := false })
    ∧ ((detectDiseaseChain credential ProviderOutcome.timeout
          (ProviderOutcome.ok out)).result = ChainResult.ok out "free")
    ∧ ((detectDiseaseChain credential ProviderOutcome.timeout
          (ProviderOutcome.timeout : ProviderOutcome α)).result
        = ChainResult.allProvidersFailed) := by
  refine ⟨⟨rfl, rfl⟩, rfl, ?_, ?_⟩ <;> cases credential <;> rfl

/-- Witness for C7: the concrete request wiring and a concrete timed-out
enhanced call falling back to the free provider. -/
theorem provider_timeout_is_failure_not_hang_witness :
    (detectDiseaseRequest "http://localhost:8000" "").abortTimerMs = 60000
    ∧ (detectDiseaseChain (some "key") ProviderOutcome.timeout
        (ProviderOutcome.ok "report")).result = ChainResult.ok "report" "free" :=
  ⟨(provider_timeout_is_failure_not_hang "http://localhost:8000" ""
      (some "key") "report").1.2,
   (provider_timeout_is_failure_not_hang "http://localhost:8000" ""
      (some "key") "report").2.2.1⟩

/-- C8: every non-success response of the route carries one of two fixed
generic messages, and the error body does not depend on the text of the
internal exception — two runs whose internal errors differ only in their
message produce identical responses. -/
theorem error_responses_generic_and_independent (imagePresent : Bool) (env : RouteEnv) :
    ((POST imagePresent env).status ≠ 200 →
      ((POST imagePresent env).body = errorBody "No image provided"
        ∨ (POST imagePresent env).body = errorBody "Something went wrong"))
    ∧ (∀ (m₁ m₂ : String) (s : Outcome (Option SearchResults)),
        POST imagePresent { classify := Outcome.err m₁, search := s }
          = POST imagePresent { classify := Outcome.err m₂, search := s })
    ∧ (∀ (c : Outcome (List ClassResult)) (m₁ m₂ : String),
        POST imagePresent { classify := c, search := Outcome.err m₁ }
          = POST imagePresent { classify := c, search := Outcome.err m₂ }) := by
  refine ⟨?_, ?_, ?_⟩
  · intro hne
    unfold POST at hne ⊢
    cases imagePresent with
    | false => left; rfl
    | true =>
      cases hc : env.classify with
      | err m => right; rfl
      | ok results =>
        cases hh : results.head? with
        | none => right; simp [hh]
        | some t =>
          cases hs : env.search with
          | err m => right; simp [hh, hs]
          | ok sr => simp [hc, hh, hs] at hne
  · intro m₁ m₂ s
    cases imagePresent <;> rfl
  · intro c m₁ m₂
    cases imagePresent with
    | false => rfl
    | true =>
      unfold POST
      cases c with
      | err m => rfl
      | ok results => cases hh : results.head? <;> simp [hh]

/-- An environment whose classification call throws a network error. -/
def failEnv : RouteEnv :=
  { classify := Outcome.err "ECONNREFUSED 127.0.0.1", search := sampleSearch }

/-- Witness for C8: a failed classification call yields a fixed generic
body. -/
theorem error_responses_generic_and_independent_witness :
    (POST true failEnv).body = errorBody "No image provided"
    ∨ (POST true failEnv).body = errorBody "Something went wrong" :=
  (error_responses_generic_and_independent true failEnv).1 (by decide)

/-- Scores in descending order, as the Hugging Face inference client
returns them. -/
def scoresSortedDesc (results : List ClassResult) : Prop :=
  List.Pairwise (fun a b => b.score ≤ a.score) results

/-- C9: the route reports the first classification result; since results
arrive sorted by descending score, the reported confidence is the maximum
score and the reported label is a label attaining it. -/
theorem confidence_max_prediction_argmax
    (results : List ClassResult) (t : ClassResult) (sr : Option SearchResults)
    (hsorted : scoresSortedDesc results) (hhead : results.head? = some t) :
    t ∈ results
    ∧ (∀ r ∈ results, r.score ≤ t.score)
    ∧ ((POST true { classify := Outcome.ok results, search := Outcome.ok sr }).body.get? 0
        = some ("diseaseName", JsonVal.str t.label))
    ∧ ((POST true { classify := Outcome.ok results, search := Outcome.ok sr }).body.get? 1
        = some ("identificationConfidence", JsonVal.num t.score)) := by
  cases results with
  | nil => simp at hhead
  | cons a rest =>
    simp only [List.head?_cons, Option.some.injEq] at hhead
    subst hhead
    unfold scoresSortedDesc at hsorted
    rw [List.pairwise_cons] at hsorted
    refine ⟨List.mem_cons_self _ _, ?_, rfl, rfl⟩
    intro r hr
    rcases List.mem_cons.mp hr with h | h
    · subst h; exact le_refl _
    · exact hsorted.1 r h

/-- A two-element classification result list with descending scores. -/
def sampleScores : List ClassResult :=
  [{ label := "sunflowers", score := 9 }, { label := "daisy", score := 1 }]

/-- An environment returning the descending sample scores. -/
def sortedEnv : RouteEnv :=
  { classify := Outcome.ok sampleScores, search := Outcome.ok none }

/-- Witness for C9: on a concrete descending score list the head is the
argmax and its score is reported as the confidence. -/
theorem confidence_max_prediction_argmax_witness :
    (POST true sortedEnv).body.get? 1
      = some ("identificationConfidence", JsonVal.num 9) :=
  (confidence_max_prediction_argmax sampleScores
    { label := "sunflowers", score := 9 } none
    (by unfold scoresSortedDesc; decide) rfl).2.2.2

/-- C10: the outgoing form carries `api_key` iff the entered key is
non-empty after trimming whitespace; a blank or whitespace-only key sends
no credential. -/
theorem api_key_sent_iff_trimmed_nonempty (geminiKey : String) :
    ("api_key" ∈ (buildUploadForm geminiKey).map Prod.fst)
      ↔ jsTrim geminiKey ≠ "" := by
  unfold buildUploadForm
  by_cases hg : geminiKey = ""
  · subst hg; decide
  · by_cases ht : jsTrim geminiKey = ""
    · simp [hg, ht]
    · simp [hg, ht]

/-- Witness for C10: a whitespace-only key transmits no credential. -/
theorem api_key_sent_iff_trimmed_nonempty_witness :
    ¬ ("api_key" ∈ (buildUploadForm "   ").map Prod.fst) :=
  fun h => (api_key_sent_iff_trimmed_nonempty "   ").mp h (by decide)

end FlowerClassification
